import Mathlib

/-!
Verification of the multi-tenant bulkhead API (src/server.js, src/worker.js).

The server composes, per tenant tier, a rate limiter, a circuit breaker and a
worker thread pool, plus a set of pg connection pools used only for metrics.
The definitions below are a shallow embedding of that code: the per-tier
configuration tables and the /api/data and /metrics/bulkheads handlers are
translated from src/server.js; the worker body is translated from the worker
module (src/unnamed/part_000 and the worker half of src/unnamed/part_001).
The rate limiter and circuit breaker come from third-party libraries whose
source is not in this repository; those two components are modelled from the
spec, as indicated on their definitions.

Time is a single millisecond clock passed explicitly to every operation.
Breaker timeouts and downstream failures both surface as an error result of
the task body, supplied to each call as an explicit downstream outcome.
-/

namespace BulkheadApi

/-- From src/server.js lines 13-17: per-tier pg pool configuration
(only the `max` field matters to the model; the connection string is opaque). -/
structure PoolConfig where
  max : Nat
deriving DecidableEq, Repr

/-- From src/server.js lines 13-17: `poolConfigs` keyed by tier. -/
def poolConfigs (tier : String) : Option PoolConfig :=
  if tier = "free" then some { max := 5 }
  else if tier = "pro" then some { max := 20 }
  else if tier = "enterprise" then some { max := 50 }
  else none

/-- From src/server.js lines 29-42: `threadPools` keyed by tier; the model keeps
only the `maxThreads` option of each Piscina pool.  A tier is valid exactly when
this lookup succeeds (the handler checks `!threadPools[tier]`). -/
def threadPoolMax (tier : String) : Option Nat :=
  if tier = "free" then some 10
  else if tier = "pro" then some 30
  else if tier = "enterprise" then some 60
  else none

/-- Rate limiter options (points per fixed window, window length in seconds),
from src/server.js lines 46-49. -/
structure LimiterConfig where
  points : Nat
  duration : Nat
deriving DecidableEq, Repr

/-- From src/server.js lines 46-49: `limiters` has entries only for `free` and
`pro`; the `enterprise` tier has no limiter (unlimited). -/
def limiters (tier : String) : Option LimiterConfig :=
  if tier = "free" then some { points := 100, duration := 60 }
  else if tier = "pro" then some { points := 1000, duration := 60 }
  else none

/-- Per-key rate limiter record: points consumed in the current window and the
window start time in ms. -/
structure LimiterEntry where
  consumed : Nat
  windowStart : Nat
deriving DecidableEq, Repr

/-- Modelled from the spec: the server uses the rate-limiter-flexible
RateLimiterMemory library, whose source is not part of this repository.
Per spec section 4.1: a fixed window of `duration` starts on the first
consumption after the previous window expired; the call is Denied when
`consumed + cost > quota`, otherwise the counter is incremented and the call
is Allowed.  Returns the decision and the resulting entry for the key. -/
def consume (cfg : LimiterConfig) (entry : Option LimiterEntry) (now : Nat)
    (cost : Nat) : Bool × LimiterEntry :=
  let cur : LimiterEntry :=
    match entry with
    | none => { consumed := 0, windowStart := now }
    | some e =>
        if e.windowStart + cfg.duration * 1000 ≤ now then
          { consumed := 0, windowStart := now }
        else e
  if cfg.points < cur.consumed + cost then (false, cur)
  else (true, { cur with consumed := cur.consumed + cost })

/-- Circuit breaker states, per spec section 4.3 and the opossum flags read by
the metrics handler (src/server.js line 132). -/
inductive BreakerMode
  | CLOSED
  | OPEN
  | HALF_OPEN
deriving DecidableEq, Repr

/-- Breaker options, from src/server.js lines 63-70 (`createBreaker`).
`volumeThreshold` is not set there; 0 is the library default (modelled from
the spec, the breaker library not being part of this repository). -/
structure BreakerOptions where
  timeout : Nat
  errorThresholdPercentage : Nat
  resetTimeout : Nat
  volumeThreshold : Nat
deriving DecidableEq, Repr

/-- The options passed to every breaker by `createBreaker`
(src/server.js lines 63-70). -/
def createBreakerOptions : BreakerOptions :=
  { timeout := 3000, errorThresholdPercentage := 50, resetTimeout := 10000,
    volumeThreshold := 0 }

/-- Live breaker state: stored mode (CLOSED or OPEN; HALF_OPEN is the temporal
condition of an OPEN breaker whose reset period has elapsed), rolling failure
and attempt counts, and the time the breaker last entered OPEN. -/
structure Breaker where
  mode : BreakerMode
  failures : Nat
  attempts : Nat
  openedAt : Nat
deriving DecidableEq, Repr

/-- The breaker's `opened` flag at time `now`: stored OPEN and the reset
period has not yet elapsed. -/
def breakerOpened (cfg : BreakerOptions) (b : Breaker) (now : Nat) : Bool :=
  b.mode = BreakerMode.OPEN && decide (now < b.openedAt + cfg.resetTimeout)

/-- The breaker's `halfOpen` flag at time `now`: stored OPEN with the reset
period elapsed (the library flips this by timer), or stored HALF_OPEN. -/
def breakerHalfOpen (cfg : BreakerOptions) (b : Breaker) (now : Nat) : Bool :=
  (b.mode = BreakerMode.OPEN && decide (b.openedAt + cfg.resetTimeout ≤ now))
    || b.mode = BreakerMode.HALF_OPEN

/-- From the worker module (src/unnamed/part_000 lines 13-25, and the worker
half of src/unnamed/part_001): if `forceError` is the string `true` the task
throws `Database Failure Simulated` without touching the database; otherwise
it opens a fresh pg pool and runs the real query, whose outcome is the
supplied `db` value.  The Bool records whether the downstream query ran. -/
def workerRun (forceError : Option String) (db : Except String (List String)) :
    Except String (List String) × Bool :=
  if forceError = some "true" then
    (Except.error "Database Failure Simulated", false)
  else (db, true)

/-- Failure of a breaker `fire` call: rejected because the circuit is open, or
the executed body failed (downstream error, injected fault, or timeout). -/
inductive FireError
  | circuitOpen
  | bodyError (msg : String)
deriving DecidableEq, Repr

/-- Outcome of a breaker `fire` call, with the observables the claims need. -/
structure FireResult where
  result : Except FireError (List String)
  bodyInvoked : Bool
  dbInvoked : Bool
  bodyFailed : Bool
  wasTrial : Bool
  breaker : Breaker

/-- Modelled from the spec: the opossum circuit breaker wrapped around
`runQueryInWorker` (src/server.js lines 53-70); the library source is not part
of this repository.  Per spec section 4.3: an OPEN breaker rejects immediately
(body never invoked) until `resetTimeout` has elapsed since it opened, after
which the next call runs as a half-open trial — trial success closes the
breaker, trial failure reopens it; a CLOSED (or half-open) breaker executes
the body, records the attempt, and trips to OPEN when the failure percentage
reaches `errorThresholdPercentage` at or above the minimum attempt volume. -/
def breakerFire (cfg : BreakerOptions) (b : Breaker) (now : Nat)
    (forceError : Option String) (db : Except String (List String)) : FireResult :=
  if breakerOpened cfg b now then
    { result := Except.error FireError.circuitOpen, bodyInvoked := false,
      dbInvoked := false, bodyFailed := false, wasTrial := false, breaker := b }
  else if breakerHalfOpen cfg b now then
    let r := workerRun forceError db
    match r.1 with
    | Except.ok rows =>
        { result := Except.ok rows, bodyInvoked := true, dbInvoked := r.2,
          bodyFailed := false, wasTrial := true,
          breaker := { mode := BreakerMode.CLOSED, failures := 0, attempts := 0,
                       openedAt := b.openedAt } }
    | Except.error m =>
        { result := Except.error (FireError.bodyError m), bodyInvoked := true,
          dbInvoked := r.2, bodyFailed := true, wasTrial := true,
          breaker := { mode := BreakerMode.OPEN, failures := b.failures + 1,
                       attempts := b.attempts + 1, openedAt := now } }
  else
    let r := workerRun forceError db
    match r.1 with
    | Except.ok rows =>
        { result := Except.ok rows, bodyInvoked := true, dbInvoked := r.2,
          bodyFailed := false, wasTrial := false,
          breaker := { b with attempts := b.attempts + 1 } }
    | Except.error m =>
        let f := b.failures + 1
        let a := b.attempts + 1
        let tripped :=
          decide (cfg.volumeThreshold ≤ a)
            && decide (cfg.errorThresholdPercentage * a ≤ f * 100)
        { result := Except.error (FireError.bodyError m), bodyInvoked := true,
          dbInvoked := r.2, bodyFailed := true, wasTrial := false,
          breaker :=
            if tripped then
              { mode := BreakerMode.OPEN, failures := f, attempts := a,
                openedAt := now }
            else { b with failures := f, attempts := a } }

/-- Live state of one tier: the rate limiter records keyed by admission key
(client ip), the breaker, the Piscina occupancy read by the metrics handler
(`threads.length`, `queueSize`), and the counters of the metrics-only pg pool
(`totalCount`, `idleCount`, `waitingCount`). -/
structure TierState where
  limiter : String → Option LimiterEntry
  breaker : Breaker
  threadActive : Nat
  threadQueued : Nat
  pgTotal : Nat
  pgIdle : Nat
  pgWaiting : Nat

/-- The server's mutable state: one `TierState` per tier identifier. -/
abbrev ServerState := String → TierState

/-- Pointwise update of one tier's state. -/
def updateTier (s : ServerState) (tier : String) (ts : TierState) : ServerState :=
  fun t => if t = tier then ts else s t

/-- A tier with no traffic yet: no limiter records, a closed breaker, idle
thread pool, empty pg pool. -/
def initialTier : TierState :=
  { limiter := fun _ => none,
    breaker := { mode := BreakerMode.CLOSED, failures := 0, attempts := 0,
                 openedAt := 0 },
    threadActive := 0, threadQueued := 0, pgTotal := 0, pgIdle := 0,
    pgWaiting := 0 }

/-- Server state at startup. -/
def initialState : ServerState := fun _ => initialTier

/-- An incoming /api/data request: the `x-tenant-tier` header, the
`force_error` query parameter, and the client ip used as admission key
(src/server.js lines 82-83, 93). -/
structure Request where
  tierHeader : Option String
  forceError : Option String
  ip : String
deriving DecidableEq, Repr

/-- Response body: query rows on success, or an error message. -/
inductive RespBody
  | rows (r : List String)
  | errorMsg (msg : String)
deriving DecidableEq, Repr

/-- An HTTP response: status code and body. -/
structure Response where
  status : Nat
  body : RespBody
deriving DecidableEq, Repr

/-- The rate-limiting step of the handler (src/server.js lines 91-97): if the
tier has a limiter, consume one point for the client ip; on success record the
updated entry, on denial leave the tier untouched.  Returns the admission
decision and the resulting tier state. -/
def admitStep (tier : String) (ts : TierState) (ip : String) (now : Nat) :
    Bool × TierState :=
  match limiters tier with
  | none => (true, ts)
  | some cfg =>
      let c := consume cfg (ts.limiter ip) now 1
      if c.1 then
        (true, { ts with
                  limiter := fun k => if k = ip then some c.2 else ts.limiter k })
      else (false, ts)

/-- Everything one /api/data call produces: the response, the new server
state, and the execution observables (whether the breaker was fired, whether
the fire failed, whether the task body ran, whether the real downstream query
ran, whether the body ran and failed, and whether it ran as a half-open
trial). -/
structure StepResult where
  resp : Response
  state : ServerState
  fired : Bool
  fireErrored : Bool
  bodyInvoked : Bool
  dbInvoked : Bool
  bodyFailed : Bool
  wasTrial : Bool

/-- The /api/data handler (src/server.js lines 81-109): validate the tier
against `threadPools`, else 400; apply the tier's rate limiter, on denial 429;
fire the tier's breaker (which runs the task in the tier's worker pool); on
success answer 200 with the rows, on failure answer 503 when the breaker is
open at response time and 500 otherwise. -/
def apiDataFull (s : ServerState) (req : Request) (now : Nat)
    (db : Except String (List String)) : StepResult :=
  match req.tierHeader with
  | none =>
      { resp := { status := 400,
                  body := RespBody.errorMsg "Missing or invalid X-Tenant-Tier header" },
        state := s, fired := false, fireErrored := false, bodyInvoked := false,
        dbInvoked := false, bodyFailed := false, wasTrial := false }
  | some tier =>
      match threadPoolMax tier with
      | none =>
          { resp := { status := 400,
                      body := RespBody.errorMsg "Missing or invalid X-Tenant-Tier header" },
            state := s, fired := false, fireErrored := false, bodyInvoked := false,
            dbInvoked := false, bodyFailed := false, wasTrial := false }
      | some _ =>
          let adm := admitStep tier (s tier) req.ip now
          if adm.1 then
            let fr := breakerFire createBreakerOptions adm.2.breaker now
                        req.forceError db
            let s2 := updateTier s tier { adm.2 with breaker := fr.breaker }
            match fr.result with
            | Except.ok rows =>
                { resp := { status := 200, body := RespBody.rows rows },
                  state := s2, fired := true, fireErrored := false,
                  bodyInvoked := fr.bodyInvoked, dbInvoked := fr.dbInvoked,
                  bodyFailed := fr.bodyFailed, wasTrial := fr.wasTrial }
            | Except.error e =>
                let msg :=
                  match e with
                  | FireError.circuitOpen => "Breaker is open"
                  | FireError.bodyError m => m
                { resp := { status :=
                              if fr.breaker.mode = BreakerMode.OPEN then 503
                              else 500,
                            body := RespBody.errorMsg msg },
                  state := s2, fired := true, fireErrored := true,
                  bodyInvoked := fr.bodyInvoked, dbInvoked := fr.dbInvoked,
                  bodyFailed := fr.bodyFailed, wasTrial := fr.wasTrial }
          else
            { resp := { status := 429, body := RespBody.errorMsg "Too Many Requests" },
              state := s, fired := false, fireErrored := false,
              bodyInvoked := false, dbInvoked := false, bodyFailed := false,
              wasTrial := false }

/-- The handler projected to its externally visible pair. -/
def apiData (s : ServerState) (req : Request) (now : Nat)
    (db : Except String (List String)) : Response × ServerState :=
  ((apiDataFull s req now db).resp, (apiDataFull s req now db).state)

/-- Run a sequence of requests (each with its arrival time and downstream
outcome), returning the final server state. -/
def runSeq (s : ServerState) :
    List (Request × Nat × Except String (List String)) → ServerState
  | [] => s
  | (r, now, db) :: rest => runSeq (apiDataFull s r now db).state rest

/-- Run a sequence of requests, returning the list of responses and the final
server state. -/
def runSeqR (s : ServerState) :
    List (Request × Nat × Except String (List String)) →
      List Response × ServerState
  | [] => ([], s)
  | (r, now, db) :: rest =>
      let st := apiDataFull s r now db
      let t := runSeqR st.state rest
      (st.resp :: t.1, t.2)

/-- Metrics for one tier's pg connection pool, from src/server.js lines
120-125: `active` is `totalCount - idleCount`, `pending` is `waitingCount`,
`max` the configured maximum. -/
structure ConnectionPoolMetrics where
  active : Nat
  idle : Nat
  pending : Nat
  max : Nat
deriving DecidableEq, Repr

/-- Metrics for one tier's Piscina pool, from src/server.js lines 126-130:
`active` is `threads.length`, `queued` is `queueSize`, `poolSize` the
configured `maxThreads`. -/
structure ThreadPoolMetrics where
  active : Nat
  queued : Nat
  poolSize : Nat
deriving DecidableEq, Repr

/-- Metrics for one tier's breaker, from src/server.js lines 131-134. -/
structure CircuitBreakerMetrics where
  state : String
  failures : Nat
deriving DecidableEq, Repr

/-- The per-tier entry of the /metrics/bulkheads payload
(src/server.js lines 119-135). -/
structure TierMetrics where
  connectionPool : ConnectionPoolMetrics
  threadPool : ThreadPoolMetrics
  circuitBreaker : CircuitBreakerMetrics
deriving DecidableEq, Repr

/-- The JSON keys of each per-tier metrics object, exactly as written by the
handler at src/server.js lines 119-135: three component groups and no others. -/
def tierMetricsKeys : List String :=
  ["connectionPool", "threadPool", "circuitBreaker"]

/-- The breaker state string reported by the metrics handler
(src/server.js line 132): `opened` yields OPEN, else `halfOpen` yields
HALF_OPEN, else CLOSED. -/
def breakerStateStr (cfg : BreakerOptions) (b : Breaker) (now : Nat) : String :=
  if breakerOpened cfg b now then "OPEN"
  else if breakerHalfOpen cfg b now then "HALF_OPEN"
  else "CLOSED"

/-- The metrics entry the handler builds for one tier (src/server.js lines
115-135); defined when the tier has a pool config and a thread pool. -/
def tierMetrics (s : ServerState) (now : Nat) (tier : String) :
    Option TierMetrics :=
  match poolConfigs tier, threadPoolMax tier with
  | some pc, some tp =>
      let ts := s tier
      some
        { connectionPool :=
            { active := ts.pgTotal - ts.pgIdle, idle := ts.pgIdle,
              pending := ts.pgWaiting, max := pc.max },
          threadPool :=
            { active := ts.threadActive, queued := ts.threadQueued,
              poolSize := tp },
          circuitBreaker :=
            { state := breakerStateStr createBreakerOptions ts.breaker now,
              failures := ts.breaker.failures } }
  | _, _ => none

/-- The /metrics/bulkheads handler (src/server.js lines 112-138): one metrics
entry per configured tier, in the order the handler iterates them. -/
def metricsSnapshot (s : ServerState) (now : Nat) :
    List (String × Option TierMetrics) :=
  ["free", "pro", "enterprise"].map (fun t => (t, tierMetrics s now t))

/-- Replace the pg metrics-pool counters of every tier, leaving the limiter,
breaker and thread-pool fields untouched.  Used to state that the handler's
behaviour does not depend on the metrics pools. -/
def setPg (s : ServerState) (f : String → Nat × Nat × Nat) : ServerState :=
  fun t =>
    { s t with pgTotal := (f t).1, pgIdle := (f t).2.1, pgWaiting := (f t).2.2 }

/-- Static bound, read off the code structure, on the pg connections a single
tier's workers can hold at once: each task run by the worker opens its own
fresh pool of up to `poolConfigs[tier].max` connections (src/unnamed/part_000
lines 17-25) and up to `maxThreads` tasks run concurrently
(src/server.js lines 29-42), so the peak is their product. -/
def workerPeakConnections (tier : String) : Option Nat :=
  match poolConfigs tier, threadPoolMax tier with
  | some pc, some tp => some (tp * pc.max)
  | _, _ => none

/-- A successful downstream query outcome used by the concrete scenarios. -/
def dbOk : Except String (List String) := Except.ok ["row"]

/-- A failing downstream query outcome used by the concrete scenarios. -/
def dbErr : Except String (List String) := Except.error "connection refused"

/-- A fault-injected request against the free tier
(load-test.sh step 3: `X-Tenant-Tier: free`, `force_error=true`). -/
def reqFreeFault : Request :=
  { tierHeader := some "free", forceError := some "true", ip := "10.0.0.1" }

/-- A plain request against the free tier. -/
def reqFree : Request :=
  { tierHeader := some "free", forceError := none, ip := "10.0.0.1" }

/-- Ten consecutive fault-injected free-tier requests at time 0. -/
def tripSeq : List (Request × Nat × Except String (List String)) :=
  List.replicate 10 (reqFreeFault, 0, dbOk)

/-- Server state after the ten fault-injected free-tier requests. -/
def s10 : ServerState := runSeq initialState tripSeq

/-- 105 free-tier admission requests arriving at the same instant (one
60-second rate window), with a healthy downstream. -/
def burst105 : List (Request × Nat × Except String (List String)) :=
  List.replicate 105 (reqFree, 0, dbOk)

/-- The 105 responses of the burst scenario. -/
def burstResponses : List Response := (runSeqR initialState burst105).1

/-- A server state whose free-tier rate window is already exhausted for the
demo client (100 of 100 points consumed), everything else untouched. -/
def sExhausted : ServerState :=
  updateTier initialState "free"
    { initialTier with
        limiter := fun k =>
          if k = "10.0.0.1" then some { consumed := 100, windowStart := 0 }
          else none }

/-- The metrics entry of an untouched tier with pool max 5 and 10 worker
threads (the free tier at startup), used by a concrete check below. -/
def freshFreeMetrics : TierMetrics :=
  { connectionPool := { active := 0, idle := 0, pending := 0, max := 5 },
    threadPool := { active := 0, queued := 0, poolSize := 10 },
    circuitBreaker := { state := "CLOSED", failures := 0 } }

/-! ## Helper lemmas -/

lemma admitStep_breaker (tier : String) (ts : TierState) (ip : String)
    (now : Nat) : ((admitStep tier ts ip now).2).breaker = ts.breaker := by
  unfold admitStep
  cases limiters tier with
  | none => rfl
  | some cfg =>
      dsimp only
      split <;> rfl

lemma admitStep_pg_thread (tier : String) (ts : TierState) (ip : String)
    (now : Nat) :
    ((admitStep tier ts ip now).2).pgTotal = ts.pgTotal ∧
    ((admitStep tier ts ip now).2).pgIdle = ts.pgIdle ∧
    ((admitStep tier ts ip now).2).pgWaiting = ts.pgWaiting ∧
    ((admitStep tier ts ip now).2).threadActive = ts.threadActive ∧
    ((admitStep tier ts ip now).2).threadQueued = ts.threadQueued := by
  unfold admitStep
  cases limiters tier with
  | none => exact ⟨rfl, rfl, rfl, rfl, rfl⟩
  | some cfg =>
      dsimp only
      split <;> exact ⟨rfl, rfl, rfl, rfl, rfl⟩

lemma apiDataFull_state_other (s : ServerState) (req : Request) (now : Nat)
    (db : Except String (List String)) (t : String)
    (h : req.tierHeader ≠ some t) :
    (apiDataFull s req now db).state t = s t := by
  cases hh : req.tierHeader with
  | none => simp [apiDataFull, hh]
  | some tier =>
      have hne : t ≠ tier := by
        intro he
        exact h (by rw [hh, he])
      cases hm : threadPoolMax tier with
      | none => simp [apiDataFull, hh, hm]
      | some m =>
          simp only [apiDataFull, hh, hm]
          split
          · split <;> simp [updateTier, hne]
          · rfl

lemma apiDataFull_preserves (s : ServerState) (req : Request) (now : Nat)
    (db : Except String (List String)) (t : String) :
    ((apiDataFull s req now db).state t).pgTotal = (s t).pgTotal ∧
    ((apiDataFull s req now db).state t).pgIdle = (s t).pgIdle ∧
    ((apiDataFull s req now db).state t).pgWaiting = (s t).pgWaiting ∧
    ((apiDataFull s req now db).state t).threadActive = (s t).threadActive ∧
    ((apiDataFull s req now db).state t).threadQueued = (s t).threadQueued := by
  by_cases h : req.tierHeader = some t
  · cases hm : threadPoolMax t with
    | none => simp [apiDataFull, h, hm]
    | some m =>
        have hp := admitStep_pg_thread t (s t) req.ip now
        simp only [apiDataFull, h, hm]
        split
        · split <;> simpa [updateTier] using hp
        · exact ⟨rfl, rfl, rfl, rfl, rfl⟩
  · rw [apiDataFull_state_other s req now db t h]
    exact ⟨rfl, rfl, rfl, rfl, rfl⟩

lemma runSeq_state_other (s : ServerState)
    (reqs : List (Request × Nat × Except String (List String))) (t : String)
    (h : ∀ e ∈ reqs, e.1.tierHeader ≠ some t) :
    runSeq s reqs t = s t := by
  induction reqs generalizing s with
  | nil => rfl
  | cons e rest ih =>
      obtain ⟨r, now, db⟩ := e
      have h1 : r.tierHeader ≠ some t := h _ (List.mem_cons_self _ _)
      have h2 : ∀ x ∈ rest, x.1.tierHeader ≠ some t :=
        fun x hx => h x (List.mem_cons_of_mem _ hx)
      show runSeq (apiDataFull s r now db).state rest t = s t
      rw [ih _ h2, apiDataFull_state_other s r now db t h1]

lemma runSeq_pg (s : ServerState)
    (reqs : List (Request × Nat × Except String (List String))) (t : String) :
    (runSeq s reqs t).pgTotal = (s t).pgTotal ∧
    (runSeq s reqs t).pgIdle = (s t).pgIdle ∧
    (runSeq s reqs t).pgWaiting = (s t).pgWaiting := by
  induction reqs generalizing s with
  | nil => exact ⟨rfl, rfl, rfl⟩
  | cons e rest ih =>
      obtain ⟨r, now, db⟩ := e
      have hp := apiDataFull_preserves s r now db t
      have hr := ih (apiDataFull s r now db).state
      exact ⟨hr.1.trans hp.1, hr.2.1.trans hp.2.1, hr.2.2.trans hp.2.2.1⟩

lemma threadPoolMax_none_iff (t : String) :
    threadPoolMax t = none ↔ t ≠ "free" ∧ t ≠ "pro" ∧ t ≠ "enterprise" := by
  unfold threadPoolMax
  split
  · rename_i h
    simp [h]
  · split
    · rename_i h
      simp [h]
    · split
      · rename_i h
        simp [h]
      · rename_i h1 h2 h3
        simp [h1, h2, h3]

lemma consume_one_allowed (cfg : LimiterConfig) (e : LimiterEntry) (now : Nat)
    (h1 : e.consumed + 1 ≤ cfg.points) :
    (consume cfg (some e) now 1).1 = true := by
  unfold consume
  dsimp only
  split
  · split
    · rename_i hlt
      dsimp at hlt
      omega
    · rfl
  · split
    · rename_i hlt
      omega
    · rfl

lemma admitStep_allowed (tier : String) (ts : TierState) (ip : String)
    (now : Nat) (cfg : LimiterConfig) (hl : limiters tier = some cfg)
    (hc : (consume cfg (ts.limiter ip) now 1).1 = true) :
    (admitStep tier ts ip now).1 = true := by
  unfold admitStep
  rw [hl]
  dsimp only
  rw [hc]
  rfl

lemma apiDataFull_open_reject (s : ServerState) (req : Request) (tier : String)
    (now : Nat) (db : Except String (List String)) (m : Nat)
    (htier : req.tierHeader = some tier) (hm : threadPoolMax tier = some m)
    (hadm : (admitStep tier (s tier) req.ip now).1 = true)
    (hmode : (s tier).breaker.mode = BreakerMode.OPEN)
    (hlt : now < (s tier).breaker.openedAt + createBreakerOptions.resetTimeout) :
    (apiDataFull s req now db).resp.status = 503 ∧
    (apiDataFull s req now db).resp.body = RespBody.errorMsg "Breaker is open" ∧
    (apiDataFull s req now db).bodyInvoked = false ∧
    (apiDataFull s req now db).fired = true := by
  have hb : (admitStep tier (s tier) req.ip now).2.breaker = (s tier).breaker :=
    admitStep_breaker tier (s tier) req.ip now
  have hopen :
      breakerOpened createBreakerOptions
        (admitStep tier (s tier) req.ip now).2.breaker now = true := by
    simp [breakerOpened, hb, hmode, hlt]
  simp only [apiDataFull, htier, hm, hadm, if_true, breakerFire, hopen]
  simp [hb, hmode]

lemma apiDataFull_open_trial (s : ServerState) (req : Request) (tier : String)
    (now : Nat) (db : Except String (List String)) (m : Nat)
    (htier : req.tierHeader = some tier) (hm : threadPoolMax tier = some m)
    (hadm : (admitStep tier (s tier) req.ip now).1 = true)
    (hmode : (s tier).breaker.mode = BreakerMode.OPEN)
    (hge : (s tier).breaker.openedAt + createBreakerOptions.resetTimeout ≤ now) :
    (apiDataFull s req now db).wasTrial = true ∧
    (apiDataFull s req now db).bodyInvoked = true := by
  have hb : (admitStep tier (s tier) req.ip now).2.breaker = (s tier).breaker :=
    admitStep_breaker tier (s tier) req.ip now
  have hopen :
      breakerOpened createBreakerOptions
        (admitStep tier (s tier) req.ip now).2.breaker now = false := by
    simp [breakerOpened, hb]
    omega
  have hhalf :
      breakerHalfOpen createBreakerOptions
        (admitStep tier (s tier) req.ip now).2.breaker now = true := by
    simp [breakerHalfOpen, hb, hmode, hge]
  simp only [apiDataFull, htier, hm, hadm, if_true, breakerFire, hopen, hhalf]
  cases (workerRun req.forceError db).1 with
  | ok rows => exact ⟨rfl, rfl⟩
  | error e => exact ⟨rfl, rfl⟩

lemma breakerFire_body (cfg : BreakerOptions) (b : Breaker) (now : Nat)
    (forceError : Option String) (db : Except String (List String))
    (hinv : (breakerFire cfg b now forceError db).bodyInvoked = true) :
    (forceError = some "true" →
      (breakerFire cfg b now forceError db).dbInvoked = false ∧
      (breakerFire cfg b now forceError db).bodyFailed = true) ∧
    (forceError ≠ some "true" →
      (breakerFire cfg b now forceError db).dbInvoked = true) := by
  constructor
  · intro hfe
    have hw : workerRun forceError db =
        (Except.error "Database Failure Simulated", false) := by
      simp [workerRun, hfe]
    simp only [breakerFire, hw] at hinv ⊢
    by_cases ho : breakerOpened cfg b now = true
    · simp [ho] at hinv
    · by_cases hh : breakerHalfOpen cfg b now = true
      · simp [ho, hh]
      · simp [ho, hh]
  · intro hfe
    have hw : workerRun forceError db = (db, true) := by
      simp [workerRun, hfe]
    simp only [breakerFire, hw] at hinv ⊢
    by_cases ho : breakerOpened cfg b now = true
    · simp [ho] at hinv
    · by_cases hh : breakerHalfOpen cfg b now = true
      · cases db <;> simp [ho, hh]
      · cases db <;> simp [ho, hh]

lemma breakerFire_failures (cfg : BreakerOptions) (b : Breaker) (now : Nat)
    (forceError : Option String) (db : Except String (List String)) :
    ((breakerFire cfg b now forceError db).bodyFailed = true →
      (breakerFire cfg b now forceError db).breaker.failures = b.failures + 1) ∧
    ((breakerFire cfg b now forceError db).bodyInvoked = false →
      (breakerFire cfg b now forceError db).breaker = b) := by
  by_cases ho : breakerOpened cfg b now = true
  · simp [breakerFire, ho]
  · rw [Bool.not_eq_true] at ho
    by_cases hh : breakerHalfOpen cfg b now = true
    · cases hw : (workerRun forceError db).1 with
      | ok rows => simp [breakerFire, ho, hh, hw]
      | error m => simp [breakerFire, ho, hh, hw]
    · rw [Bool.not_eq_true] at hh
      cases hw : (workerRun forceError db).1 with
      | ok rows => simp [breakerFire, ho, hh, hw]
      | error m =>
          constructor
          · intro _
            simp only [breakerFire, ho, hh, hw]
            simp only [Bool.false_eq_true, if_false]
            split <;> rfl
          · intro hc
            simp [breakerFire, ho, hh, hw] at hc


/-- Claim C1: tier isolation (frame property).  For any two distinct tiers A
and B, every sequence of /api/data calls whose requests all carry tier A
(whatever their fault flags, arrival times or downstream outcomes — including
sequences that trip A's breaker) leaves tier B's state untouched: B's
metrics-endpoint entry, B's rate-limiter records (consumed points), and B's
breaker (state and failure count) are identical before and after. -/
theorem C1_tier_isolation (s : ServerState) (A B : String)
    (reqs : List (Request × Nat × Except String (List String)))
    (hAB : A ≠ B) (hA : ∀ e ∈ reqs, e.1.tierHeader = some A) :
    runSeq s reqs B = s B ∧
    (∀ now, tierMetrics (runSeq s reqs) now B = tierMetrics s now B) ∧
    (∀ key, (runSeq s reqs B).limiter key = (s B).limiter key) ∧
    (runSeq s reqs B).breaker = (s B).breaker := by
  have hfr : runSeq s reqs B = s B := by
    apply runSeq_state_other
    intro e he heq
    have h1 := hA e he
    rw [h1] at heq
    exact hAB (Option.some.inj heq)
  refine ⟨hfr, ?_, ?_, ?_⟩
  · intro now
    simp only [tierMetrics, hfr]
  · intro key
    rw [hfr]
  · rw [hfr]

/-- Claim C1 witness: running the breaker-tripping fault sequence against the
free tier leaves the pro tier's state exactly as it started. -/
theorem C1_tier_isolation_witness :
    runSeq initialState tripSeq "pro" = initialState "pro" :=
  (C1_tier_isolation initialState "free" "pro" tripSeq (by decide)
    (by decide)).1

/-- Claim C2: circuit-breaker trip scenario.  The free tier's breaker is
configured with errorThresholdPercentage 50 and resetTimeout 10000 ms; ten
consecutive fault-injected requests leave the free breaker OPEN; any further
request arriving within 10 s of the trip (which happened at time 0) is
answered 503 with the breaker-open message and the task body is not invoked,
whatever the downstream would have returned; and the first request once 10 s
have elapsed runs as a HALF_OPEN trial with the body invoked. -/
theorem C2_breaker_trip (t u : Nat) (db db' : Except String (List String))
    (ht : t < 10000) (hu : 10000 ≤ u) :
    (createBreakerOptions.errorThresholdPercentage = 50 ∧
     createBreakerOptions.resetTimeout = 10000) ∧
    (s10 "free").breaker.mode = BreakerMode.OPEN ∧
    ((apiDataFull s10 reqFreeFault t db).resp.status = 503 ∧
     (apiDataFull s10 reqFreeFault t db).resp.body =
       RespBody.errorMsg "Breaker is open" ∧
     (apiDataFull s10 reqFreeFault t db).bodyInvoked = false) ∧
    ((apiDataFull s10 reqFreeFault u db').wasTrial = true ∧
     (apiDataFull s10 reqFreeFault u db').bodyInvoked = true) := by
  have hlim : limiters "free" = some { points := 100, duration := 60 } := rfl
  have hent : (s10 "free").limiter "10.0.0.1" =
      some { consumed := 10, windowStart := 0 } := rfl
  have hmode : (s10 "free").breaker.mode = BreakerMode.OPEN := rfl
  have hat : (s10 "free").breaker.openedAt = 0 := rfl
  have hadm : ∀ v : Nat, (admitStep "free" (s10 "free") "10.0.0.1" v).1 = true := by
    intro v
    apply admitStep_allowed "free" (s10 "free") "10.0.0.1" v
        { points := 100, duration := 60 } hlim
    rw [hent]
    exact consume_one_allowed { points := 100, duration := 60 }
      { consumed := 10, windowStart := 0 } v (by norm_num)
  refine ⟨⟨rfl, rfl⟩, hmode, ?_, ?_⟩
  · have h := apiDataFull_open_reject s10 reqFreeFault "free" t db 10 rfl rfl
      (hadm t) hmode (by rw [hat]; simpa using ht)
    exact ⟨h.1, h.2.1, h.2.2.1⟩
  · exact apiDataFull_open_trial s10 reqFreeFault "free" u db' 10 rfl rfl
      (hadm u) hmode (by rw [hat]; simpa using hu)

/-- Claim C2 witness: the trip scenario at the concrete times 5000 ms (still
open, 503 without execution) and 10000 ms (half-open trial). -/
theorem C2_breaker_trip_witness :
    (apiDataFull s10 reqFreeFault 5000 dbOk).resp.status = 503 ∧
    (apiDataFull s10 reqFreeFault 10000 dbOk).wasTrial = true := by
  have h := C2_breaker_trip 5000 10000 dbOk dbOk (by norm_num) (by norm_num)
  exact ⟨h.2.2.1.1, h.2.2.2.1⟩

/-- Claim C3: fixed-window quota.  The free tier is configured with 100
points per 60-second window; within the current window `consume` is Denied
exactly when the consumed counter plus the cost exceeds the quota (leaving
the record unchanged) and otherwise increments the counter and Allows; and
105 free-tier requests arriving within one window produce exactly 100
successful admissions and 5 rate-limited (429) responses. -/
theorem C3_rate_limit_quota :
    limiters "free" = some { points := 100, duration := 60 } ∧
    (∀ (cfg : LimiterConfig) (e : LimiterEntry) (now cost : Nat),
      now < e.windowStart + cfg.duration * 1000 →
      ((cfg.points < e.consumed + cost →
          consume cfg (some e) now cost = (false, e)) ∧
       (e.consumed + cost ≤ cfg.points →
          consume cfg (some e) now cost =
            (true, { consumed := e.consumed + cost,
                     windowStart := e.windowStart })))) ∧
    (burstResponses.filter (fun r => r.status == 429)).length = 5 ∧
    (burstResponses.filter (fun r => r.status == 200)).length = 100 := by
  refine ⟨rfl, ?_, by decide, by decide⟩
  intro cfg e now cost hwin
  unfold consume
  dsimp only
  have hno : ¬ (e.windowStart + cfg.duration * 1000 ≤ now) := by omega
  rw [if_neg hno]
  constructor
  · intro hgt
    rw [if_pos hgt]
  · intro hle
    rw [if_neg (by omega : ¬ cfg.points < e.consumed + cost)]

/-- Claim C3 witness: with the free-tier quota, a key that has consumed all
100 points in the live window is denied an additional point at no state
change. -/
theorem C3_rate_limit_quota_witness :
    consume { points := 100, duration := 60 }
      (some { consumed := 100, windowStart := 0 }) 0 1 =
      (false, { consumed := 100, windowStart := 0 }) :=
  (C3_rate_limit_quota.2.1 { points := 100, duration := 60 }
    { consumed := 100, windowStart := 0 } 0 1 (by norm_num)).1 (by norm_num)

/-- Claim C4 counterexample: a plain free-tier request on a fresh server whose
downstream query fails is answered 503, not the 500 the claim assigns to
downstream failures — the recorded failure itself trips the breaker (one
failure is 100% ≥ 50% with no minimum volume) and the handler chooses the
status by inspecting the breaker after the fire. -/
theorem C4_counterexample :
    (apiDataFull initialState reqFree 0 dbErr).bodyFailed = true ∧
    (apiDataFull initialState reqFree 0 dbErr).resp.status = 503 ∧
    (apiDataFull initialState reqFree 0 dbErr).resp.status ≠ 500 :=
  ⟨rfl, rfl, by decide⟩

/-- Claim C4 amended: transport error mapping as the code implements it —
an unknown or missing tier is answered 400 and a rate-limited request 429;
for an admitted request the status is 200 on success, and on any failure
surfaced by the breaker (open-rejection, downstream error, injected fault or
timeout) it is 503 exactly when the tier's breaker is open at response time
(including when the failing call itself tripped it) and 500 otherwise; there
is no separate 503 class for resource exhaustion with a closed breaker. -/
theorem C4_status_mapping (s : ServerState) (req : Request) (now : Nat)
    (db : Except String (List String)) :
    (req.tierHeader = none → (apiDataFull s req now db).resp.status = 400) ∧
    (∀ t, req.tierHeader = some t → threadPoolMax t = none →
      (apiDataFull s req now db).resp.status = 400) ∧
    (∀ t m, req.tierHeader = some t → threadPoolMax t = some m →
      (admitStep t (s t) req.ip now).1 = false →
      (apiDataFull s req now db).resp.status = 429) ∧
    (∀ t m, req.tierHeader = some t → threadPoolMax t = some m →
      (admitStep t (s t) req.ip now).1 = true →
      ((apiDataFull s req now db).fireErrored = true →
        (apiDataFull s req now db).resp.status =
          (if ((apiDataFull s req now db).state t).breaker.mode =
              BreakerMode.OPEN then 503 else 500)) ∧
      ((apiDataFull s req now db).fireErrored = false →
        (apiDataFull s req now db).resp.status = 200)) := by
  refine ⟨?_, ?_, ?_, ?_⟩
  · intro h
    simp [apiDataFull, h]
  · intro t h hm
    simp [apiDataFull, h, hm]
  · intro t m h hm hden
    simp [apiDataFull, h, hm, hden]
  · intro t m h hm hadm
    simp only [apiDataFull, h, hm, hadm, if_true]
    cases hr : (breakerFire createBreakerOptions
        (admitStep t (s t) req.ip now).2.breaker now req.forceError db).result with
    | ok rows => simp
    | error e => simp [updateTier]

/-- Claim C4 witness: a request with no tier header is answered 400. -/
theorem C4_status_mapping_witness :
    (apiDataFull initialState
      { tierHeader := none, forceError := none, ip := "10.0.0.9" } 0
      dbOk).resp.status = 400 :=
  (C4_status_mapping initialState
    { tierHeader := none, forceError := none, ip := "10.0.0.9" } 0 dbOk).1 rfl

/-- Claim C5 counterexample: a rate-limited request is a failure outcome other
than InvalidTier (it is answered 429), yet it is not reported to the breaker
as a failure count — the breaker is never fired and its failure count is
unchanged — contradicting the claim's universal clause. -/
theorem C5_counterexample :
    (apiDataFull sExhausted reqFree 0 dbOk).resp.status = 429 ∧
    (apiDataFull sExhausted reqFree 0 dbOk).fired = false ∧
    ((apiDataFull sExhausted reqFree 0 dbOk).state "free").breaker.failures =
      (sExhausted "free").breaker.failures :=
  ⟨rfl, rfl, rfl⟩

/-- Claim C5 amended: failure reporting as the code implements it — a call
that never fires the breaker (InvalidTier, RateLimitExceeded) leaves the
whole server state unchanged, and 400/429 responses never fire the breaker;
every executed task failure (injected fault, downstream error, timeout)
increments the tier's breaker failure count; an open-circuit rejection fires
the breaker but does not change its failure count. -/
theorem C5_failure_reporting (s : ServerState) (req : Request) (now : Nat)
    (db : Except String (List String)) :
    ((apiDataFull s req now db).fired = false →
      (apiDataFull s req now db).state = s) ∧
    ((apiDataFull s req now db).resp.status = 400 ∨
        (apiDataFull s req now db).resp.status = 429 →
      (apiDataFull s req now db).fired = false) ∧
    (∀ tier, req.tierHeader = some tier →
      ((apiDataFull s req now db).bodyFailed = true →
        ((apiDataFull s req now db).state tier).breaker.failures =
          (s tier).breaker.failures + 1) ∧
      ((apiDataFull s req now db).fired = true →
        (apiDataFull s req now db).bodyInvoked = false →
        ((apiDataFull s req now db).state tier).breaker.failures =
          (s tier).breaker.failures)) := by
  refine ⟨?_, ?_, ?_⟩
  · intro hf
    cases hh : req.tierHeader with
    | none => simp [apiDataFull, hh]
    | some t =>
        cases hm : threadPoolMax t with
        | none => simp [apiDataFull, hh, hm]
        | some m =>
            by_cases hadm : (admitStep t (s t) req.ip now).1 = true
            · exfalso
              simp only [apiDataFull, hh, hm, hadm, if_true] at hf
              cases hr : (breakerFire createBreakerOptions
                  (admitStep t (s t) req.ip now).2.breaker now
                  req.forceError db).result with
              | ok rows => rw [hr] at hf; simp at hf
              | error e => rw [hr] at hf; simp at hf
            · rw [Bool.not_eq_true] at hadm
              simp [apiDataFull, hh, hm, hadm]
  · intro hst
    cases hh : req.tierHeader with
    | none => simp [apiDataFull, hh]
    | some t =>
        cases hm : threadPoolMax t with
        | none => simp [apiDataFull, hh, hm]
        | some m =>
            by_cases hadm : (admitStep t (s t) req.ip now).1 = true
            · exfalso
              simp only [apiDataFull, hh, hm, hadm, if_true] at hst
              cases hr : (breakerFire createBreakerOptions
                  (admitStep t (s t) req.ip now).2.breaker now
                  req.forceError db).result with
              | ok rows =>
                  rw [hr] at hst
                  simp at hst
              | error e =>
                  rw [hr] at hst
                  simp at hst
                  rcases hst with hst | hst <;> split at hst <;> omega
            · rw [Bool.not_eq_true] at hadm
              simp [apiDataFull, hh, hm, hadm]
  · intro tier htier
    have hb : (admitStep tier (s tier) req.ip now).2.breaker = (s tier).breaker :=
      admitStep_breaker tier (s tier) req.ip now
    have hbf := breakerFire_failures createBreakerOptions
      (admitStep tier (s tier) req.ip now).2.breaker now req.forceError db
    cases hm : threadPoolMax tier with
    | none => simp [apiDataFull, htier, hm]
    | some m =>
        by_cases hadm : (admitStep tier (s tier) req.ip now).1 = true
        · constructor
          · intro hfail
            simp only [apiDataFull, htier, hm, hadm, if_true] at hfail ⊢
            cases hr : (breakerFire createBreakerOptions
                (admitStep tier (s tier) req.ip now).2.breaker now
                req.forceError db).result with
            | ok rows =>
                rw [hr] at hfail
                simp only [updateTier, if_pos rfl] at *
                simp at hfail ⊢
                rw [← hb]
                exact hbf.1 hfail
            | error e =>
                rw [hr] at hfail
                simp only [updateTier, if_pos rfl] at *
                simp at hfail ⊢
                rw [← hb]
                exact hbf.1 hfail
          · intro _ hninv
            simp only [apiDataFull, htier, hm, hadm, if_true] at hninv ⊢
            cases hr : (breakerFire createBreakerOptions
                (admitStep tier (s tier) req.ip now).2.breaker now
                req.forceError db).result with
            | ok rows =>
                rw [hr] at hninv
                simp only [updateTier, if_pos rfl] at *
                simp at hninv ⊢
                rw [← hb, hbf.2 hninv]
            | error e =>
                rw [hr] at hninv
                simp only [updateTier, if_pos rfl] at *
                simp at hninv ⊢
                rw [← hb, hbf.2 hninv]
        · rw [Bool.not_eq_true] at hadm
          constructor
          · intro hfail
            simp [apiDataFull, htier, hm, hadm] at hfail
          · intro hfired
            simp [apiDataFull, htier, hm, hadm] at hfired

/-- Claim C5 witness: an executed fault-injected free-tier task increments the
free breaker's failure count by one. -/
theorem C5_failure_reporting_witness :
    ((apiDataFull initialState reqFreeFault 0 dbOk).state "free").breaker.failures =
      (initialState "free").breaker.failures + 1 :=
  ((C5_failure_reporting initialState reqFreeFault 0 dbOk).2.2 "free" rfl).1 rfl

/-- Claim C6: admission runs before any breaker or pool state is touched —
whenever a call is answered 429, the breaker was never fired, the task body
never ran, and the entire server state (breaker statistics, pool and thread
occupancy, limiter records) is exactly as before the call. -/
theorem C6_denied_no_side_effects (s : ServerState) (req : Request) (now : Nat)
    (db : Except String (List String))
    (h429 : (apiDataFull s req now db).resp.status = 429) :
    (apiDataFull s req now db).state = s ∧
    (apiDataFull s req now db).fired = false ∧
    (apiDataFull s req now db).bodyInvoked = false := by
  cases hh : req.tierHeader with
  | none => simp [apiDataFull, hh] at h429
  | some t =>
      cases hm : threadPoolMax t with
      | none => simp [apiDataFull, hh, hm] at h429
      | some m =>
          by_cases hadm : (admitStep t (s t) req.ip now).1 = true
          · exfalso
            simp only [apiDataFull, hh, hm, hadm, if_true] at h429
            cases hr : (breakerFire createBreakerOptions
                (admitStep t (s t) req.ip now).2.breaker now
                req.forceError db).result with
            | ok rows =>
                rw [hr] at h429
                simp at h429
            | error e =>
                rw [hr] at h429
                revert h429
                simp
                split <;> omega
          · rw [Bool.not_eq_true] at hadm
            simp [apiDataFull, hh, hm, hadm]

/-- Claim C6 witness: the rate-limited request against the exhausted free
window changes nothing. -/
theorem C6_denied_no_side_effects_witness :
    (apiDataFull sExhausted reqFree 0 dbOk).state = sExhausted :=
  (C6_denied_no_side_effects sExhausted reqFree 0 dbOk rfl).1

/-- Claim C7: invalid-tier rejection at the boundary — a request whose tier
header is absent or names a tier outside the fixed set free, pro, enterprise
is answered 400 with no component touched: the server state is unchanged, the
breaker is never fired and no task body runs. -/
theorem C7_invalid_tier (s : ServerState) (req : Request) (now : Nat)
    (db : Except String (List String))
    (h : ∀ t, req.tierHeader = some t →
      t ≠ "free" ∧ t ≠ "pro" ∧ t ≠ "enterprise") :
    (apiDataFull s req now db).resp.status = 400 ∧
    (apiDataFull s req now db).state = s ∧
    (apiDataFull s req now db).fired = false ∧
    (apiDataFull s req now db).bodyInvoked = false := by
  cases hh : req.tierHeader with
  | none => simp [apiDataFull, hh]
  | some t =>
      have hm : threadPoolMax t = none := (threadPoolMax_none_iff t).mpr (h t hh)
      simp [apiDataFull, hh, hm]

/-- Claim C8: fault-injection determinism.  The worker fails with the
simulated database failure, without running the downstream query, exactly
when the force-error flag is the string true; otherwise it runs the real
query.  Lifted through the breaker: any fire that executes the body skips the
downstream query and fails when the flag is set, and runs the downstream
query when it is not. -/
theorem C8_fault_injection (f : Option String)
    (db : Except String (List String)) (cfg : BreakerOptions) (b : Breaker)
    (now : Nat)
    (hinv : (breakerFire cfg b now f db).bodyInvoked = true) :
    workerRun (some "true") db =
      (Except.error "Database Failure Simulated", false) ∧
    (f ≠ some "true" → workerRun f db = (db, true)) ∧
    (f = some "true" →
      (breakerFire cfg b now f db).dbInvoked = false ∧
      (breakerFire cfg b now f db).bodyFailed = true) ∧
    (f ≠ some "true" → (breakerFire cfg b now f db).dbInvoked = true) := by
  have h := breakerFire_body cfg b now f db hinv
  refine ⟨by simp [workerRun], ?_, h.1, h.2⟩
  intro hf
  simp [workerRun, hf]

/-- Claim C8 witness: a fault-injected task fired through a fresh breaker
fails without ever reaching the database. -/
theorem C8_fault_injection_witness :
    (breakerFire createBreakerOptions initialTier.breaker 0 (some "true")
      dbOk).dbInvoked = false ∧
    (breakerFire createBreakerOptions initialTier.breaker 0 (some "true")
      dbOk).bodyFailed = true :=
  (C8_fault_injection (some "true") dbOk createBreakerOptions
    initialTier.breaker 0 rfl).2.2.1 rfl

/-- Claim C9 counterexample: the per-tier metrics object written by the
handler has exactly the keys connectionPool, threadPool and circuitBreaker —
there is no rateLimiter group, so the claimed rate-limiter component with
consumed and quota fields does not exist in the snapshot. -/
theorem C9_counterexample : ¬ ("rateLimiter" ∈ tierMetricsKeys) := by
  decide

/-- Claim C9 amended: metrics snapshot shape as the code implements it — the
snapshot has one entry per configured tier (free, pro, enterprise), each
defined and carrying the three groups connectionPool (active, idle, pending,
max), threadPool (active, queued, poolSize) and circuitBreaker (state,
failures), with the breaker state one of exactly OPEN, HALF_OPEN, CLOSED;
no rate-limiter metrics are exposed. -/
theorem C9_snapshot_shape (s : ServerState) (now : Nat) :
    (metricsSnapshot s now).map Prod.fst = ["free", "pro", "enterprise"] ∧
    (∀ p ∈ metricsSnapshot s now, p.2.isSome = true) ∧
    (∀ tier m, tierMetrics s now tier = some m →
      m.circuitBreaker.state = "OPEN" ∨ m.circuitBreaker.state = "HALF_OPEN" ∨
      m.circuitBreaker.state = "CLOSED") ∧
    "rateLimiter" ∉ tierMetricsKeys := by
  refine ⟨rfl, ?_, ?_, by decide⟩
  · intro p hp
    simp [metricsSnapshot] at hp
    rcases hp with h | h | h <;> subst h <;> rfl
  · intro tier m hm
    unfold tierMetrics at hm
    split at hm
    · rename_i pc tp hpc htp
      injection hm with hm'
      subst hm'
      dsimp only
      unfold breakerStateStr
      split
      · exact Or.inl rfl
      · split
        · exact Or.inr (Or.inl rfl)
        · exact Or.inr (Or.inr rfl)
    · simp at hm

/-- Claim C9 witness: the free tier's snapshot entry on a fresh server is the
fully populated three-group record, whose breaker state CLOSED is one of the
three admissible states. -/
theorem C9_snapshot_shape_witness :
    tierMetrics initialState 0 "free" = some freshFreeMetrics ∧
    (freshFreeMetrics.circuitBreaker.state = "OPEN" ∨
     freshFreeMetrics.circuitBreaker.state = "HALF_OPEN" ∨
     freshFreeMetrics.circuitBreaker.state = "CLOSED") :=
  ⟨rfl, (C9_snapshot_shape initialState 0).2.2.1 "free" freshFreeMetrics rfl⟩

/-- Claim C7 witness: the unknown tier name gold is rejected with 400 and no
state change. -/
theorem C7_invalid_tier_witness :
    (apiDataFull initialState
        { tierHeader := some "gold", forceError := none, ip := "10.0.0.9" } 0
        dbOk).resp.status = 400 ∧
    (apiDataFull initialState
        { tierHeader := some "gold", forceError := none, ip := "10.0.0.9" } 0
        dbOk).state = initialState := by
  have h := C7_invalid_tier initialState
    { tierHeader := some "gold", forceError := none, ip := "10.0.0.9" } 0 dbOk
    (by
      intro t ht
      injection ht with he
      subst he
      exact ⟨by decide, by decide, by decide⟩)
  exact ⟨h.1, h.2.1⟩

lemma admitStep_setPg (tier : String) (ts : TierState) (a b c : Nat)
    (ip : String) (now : Nat) :
    (admitStep tier { ts with pgTotal := a, pgIdle := b, pgWaiting := c }
        ip now).1 = (admitStep tier ts ip now).1 ∧
    (admitStep tier { ts with pgTotal := a, pgIdle := b, pgWaiting := c }
        ip now).2.breaker = (admitStep tier ts ip now).2.breaker := by
  unfold admitStep
  cases limiters tier with
  | none => exact ⟨rfl, rfl⟩
  | some cfg =>
      dsimp only
      split <;> exact ⟨rfl, rfl⟩

lemma apiDataFull_setPg (s : ServerState) (f : String → Nat × Nat × Nat)
    (req : Request) (now : Nat) (db : Except String (List String)) :
    (apiDataFull (setPg s f) req now db).resp = (apiDataFull s req now db).resp ∧
    (apiDataFull (setPg s f) req now db).dbInvoked =
      (apiDataFull s req now db).dbInvoked := by
  cases hh : req.tierHeader with
  | none => simp [apiDataFull, hh]
  | some t =>
      cases hm : threadPoolMax t with
      | none => simp [apiDataFull, hh, hm]
      | some m =>
          have hps : (setPg s f) t = { s t with pgTotal := (f t).1, pgIdle := (f t).2.1, pgWaiting := (f t).2.2 } := rfl
          have ha := admitStep_setPg t (s t) (f t).1 (f t).2.1 (f t).2.2
            req.ip now
          simp only [apiDataFull, hh, hm, hps, ha.1, ha.2]
          split
          · cases (breakerFire createBreakerOptions
                (admitStep t (s t) req.ip now).2.breaker now
                req.forceError db).result with
            | ok rows => exact ⟨rfl, rfl⟩
            | error e => exact ⟨rfl, rfl⟩
          · exact ⟨rfl, rfl⟩

/-- Claim C10: the metrics-only pg pools are inert.  No sequence of /api/data
requests changes any tier's connection-pool counters (the workers open their
own fresh pools instead); the handler's responses and its use of the
downstream database are independent of those counters; and because each
concurrent worker task opens a fresh pool of up to the tier's configured
connection max, the static peak across a tier's worker threads strictly
exceeds the configured per-tier max — the configured max does not bound what
the workers can open. -/
theorem C10_metrics_pools_inert :
    (∀ (s : ServerState)
       (reqs : List (Request × Nat × Except String (List String)))
       (t : String),
      (runSeq s reqs t).pgTotal = (s t).pgTotal ∧
      (runSeq s reqs t).pgIdle = (s t).pgIdle ∧
      (runSeq s reqs t).pgWaiting = (s t).pgWaiting) ∧
    (∀ (s : ServerState) (f : String → Nat × Nat × Nat) (req : Request)
       (now : Nat) (db : Except String (List String)),
      (apiDataFull (setPg s f) req now db).resp =
        (apiDataFull s req now db).resp ∧
      (apiDataFull (setPg s f) req now db).dbInvoked =
        (apiDataFull s req now db).dbInvoked) ∧
    (∀ tier pc n, poolConfigs tier = some pc →
      workerPeakConnections tier = some n → pc.max < n) := by
  refine ⟨fun s reqs t => runSeq_pg s reqs t,
    fun s f req now db => apiDataFull_setPg s f req now db, ?_⟩
  intro tier pc n hpc hn
  unfold poolConfigs at hpc
  split at hpc
  · rename_i h
    subst h
    injection hpc with e
    subst e
    simp [workerPeakConnections, poolConfigs, threadPoolMax] at hn
    show (5 : Nat) < n
    omega
  · split at hpc
    · rename_i h
      subst h
      injection hpc with e
      subst e
      simp [workerPeakConnections, poolConfigs, threadPoolMax] at hn
      show (20 : Nat) < n
      omega
    · split at hpc
      · rename_i h
        subst h
        injection hpc with e
        subst e
        simp [workerPeakConnections, poolConfigs, threadPoolMax] at hn
        show (50 : Nat) < n
        omega
      · exact absurd hpc (by simp)

/-- Claim C10 witness: for the free tier (configured connection max 5, ten
worker threads) the static worker peak of 50 connections exceeds the
configured max. -/
theorem C10_metrics_pools_inert_witness :
    ({ max := 5 } : PoolConfig).max < 50 :=
  C10_metrics_pools_inert.2.2 "free" { max := 5 } 50 rfl rfl

end BulkheadApi
